import Mathlib

/-!
Shallow embedding of the embedded-curve blackbox solver
(`acvm-repo/bn254_blackbox_solver/src/embedded_curve_ops.rs`).

Field elements of the proving field (the grumpkin base field, i.e. the bn254
scalar field) are modelled as `ZMod pBase`.  Curve points in arkworks affine
representation (`ark_grumpkin::Affine`, a coordinate pair plus an infinity
flag) are modelled as `Option (Fp × Fp)`, with `none` standing for the point
at infinity.  The external curve-arithmetic engine (`ark_ec` group addition
and `msm_bigint`) is kept abstract: operations take the engine's point
addition `ecAdd` and scalar multiplication `ecSmul` as parameters, and
`msm_bigint` is modelled by its documented semantics, the sum of the
per-pair scalar multiples.  The subgroup membership test
(`is_in_correct_subgroup_assuming_on_curve`) is likewise an abstract
parameter `subCheck`.
-/

/-- Modulus of the bn254 scalar field, which is the base field of the
grumpkin embedded curve (`ark_grumpkin::Fq`). -/
def pBase : ℕ := 21888242871839275222246405745257275088548364400416034343698204186575808495617

/-- The proving field (`FieldElement` in the source). -/
abbrev Fp := ZMod pBase

instance : NeZero pBase := ⟨by norm_num [pBase]⟩

instance : Fact (1 < pBase) := ⟨by norm_num [pBase]⟩

/-- Order of the grumpkin scalar field (`ark_grumpkin::FrConfig::MODULUS`). -/
def grumpkinScalarModulus : ℕ := 21888242871839275222246405745257275088696311157297823662689037894645226208583

/-- Coefficient `a` of the grumpkin curve `y^2 = x^3 + a*x + b`. -/
def grumpkinA : Fp := 0

/-- Coefficient `b` of the grumpkin curve (`COEFF_B = -17`). -/
def grumpkinB : Fp := -17

/-- Affine curve point in arkworks representation: `none` is the point at
infinity, `some (x, y)` a finite point. -/
abbrev GPoint := Option (Fp × Fp)

/-- One lowercase hex digit. -/
def hexDigitChar (n : ℕ) : Char :=
  if n < 10 then Char.ofNat (48 + n) else Char.ofNat (87 + n)

/-- Big-endian, zero-padded list of `k` lowercase hex digits of `n`. -/
def hexChars : ℕ → ℕ → List Char
  | 0, _ => []
  | k + 1, n => hexChars k (n / 16) ++ [hexDigitChar (n % 16)]

/-- `n` rendered as exactly `k` lowercase hex digits, zero-padded, big-endian. -/
def hexPad (k n : ℕ) : String := ⟨hexChars k n⟩

/-- Canonical hex rendering of a field element (`FieldElement::to_hex`):
32 big-endian bytes, i.e. 64 lowercase hex digits. -/
def toHex (a : Fp) : String := hexPad 64 a.val

/-- Big-endian decimal digits of `n` (with recursion fuel `k`), empty for 0. -/
def decChars : ℕ → ℕ → List Char
  | 0, _ => []
  | k + 1, n => if n = 0 then [] else decChars k (n / 10) ++ [Char.ofNat (48 + n % 10)]

/-- Decimal rendering of `n` (as `ark_ff::BigInt`'s `Display`). -/
def decStr (n : ℕ) : String := if n = 0 then "0" else ⟨decChars 78 n⟩

/-- `Display` of an arkworks affine point: `"infinity"` for the point at
infinity, otherwise `"(x, y)"` with decimal canonical coordinates. -/
def dispPoint : GPoint → String
  | none => "infinity"
  | some (x, y) => "(" ++ decStr x.val ++ ", " ++ decStr y.val ++ ")"

/-- The two blackbox opcodes handled by this solver. -/
inductive BlackBoxFunc where
  | MultiScalarMul
  | EmbeddedCurveAdd
deriving DecidableEq

/-- Typed solver failure: the opcode that failed plus a diagnostic message. -/
inductive BlackBoxResolutionError where
  | Failed (func : BlackBoxFunc) (msg : String)
deriving DecidableEq

/-- The non-boolean-flag message produced by the two public operations. -/
def malformedFlagMsg : String :=
  "EmbeddedCurvePoint is malformed (non-boolean `is_infinite` flag)"

/-- `field_to_u128_limb`: narrows a field element to `u128`
(`limb.try_into_u128()`), failing when the canonical integer representative
does not fit in 128 bits. -/
def field_to_u128_limb (limb : Fp) (func : BlackBoxFunc) :
    Except BlackBoxResolutionError ℕ :=
  if limb.val < 2 ^ 128 then .ok limb.val
  else .error (.Failed func ("Limb " ++ toHex limb ++ " is not less than 2^128"))

/-- The affine curve equation check performed by arkworks
(`Affine::new_unchecked(x, y).is_on_curve()` with the grumpkin coefficients). -/
def is_on_curve (x y : Fp) : Prop := y ^ 2 = x ^ 3 + grumpkinA * x + grumpkinB

instance (x y : Fp) : Decidable ( is_on_curve x y) := by
  unfold is_on_curve
  infer_instance

/-- `create_point`: builds a validated curve point from an
`(x, y, is_infinite)` triple, mirroring the source's branch order
(`is_one`, then non-boolean, then on-curve, then subgroup).  `subCheck`
abstracts the external `is_in_correct_subgroup_assuming_on_curve` test. -/
def create_point (subCheck : Fp → Fp → Bool) (x y is_infinite : Fp) :
    Except String GPoint :=
  if is_infinite = 1 then .ok none
  else if is_infinite = 0 then
    if is_on_curve x y then
      if subCheck x y then .ok (some (x, y))
      else .error ("Point (" ++ toHex x ++ ", " ++ toHex y ++ ") is not in correct subgroup")
    else .error ("Point (" ++ toHex x ++ ", " ++ toHex y ++ ") is not on curve")
  else .error "`is_infinite` flag is non-boolean"

/-- Scalar reconstruction and range check (lines 57-77 of the source):
splits the two `u128` limbs into four `u64` words (the `as u64` casts),
reassembles the 256-bit value, and rejects values not below the grumpkin
scalar-field order, rendering the four words big-endian as the diagnostic. -/
def checkGrumpkinScalar (lo hi : ℕ) : Except BlackBoxResolutionError ℕ :=
  if grumpkinScalarModulus ≤ lo % 2 ^ 64 + lo / 2 ^ 64 % 2 ^ 64 * 2 ^ 64
      + hi % 2 ^ 64 * 2 ^ 128 + hi / 2 ^ 64 % 2 ^ 64 * 2 ^ 192 then
    .error (.Failed .MultiScalarMul
      (hexPad 16 (hi / 2 ^ 64 % 2 ^ 64) ++ hexPad 16 (hi % 2 ^ 64)
        ++ hexPad 16 (lo / 2 ^ 64 % 2 ^ 64) ++ hexPad 16 (lo % 2 ^ 64)
        ++ " is not a valid grumpkin scalar"))
  else .ok (lo % 2 ^ 64 + lo / 2 ^ 64 % 2 ^ 64 * 2 ^ 64
      + hi % 2 ^ 64 * 2 ^ 128 + hi / 2 ^ 64 % 2 ^ 64 * 2 ^ 192)

/-- One batch element of `multi_scalar_mul`: a flattened point triple
`(x, y, inf)` from `points` together with its two scalar limbs. -/
structure Elem where
  x : Fp
  y : Fp
  inf : Fp
  lo : Fp
  hi : Fp
deriving DecidableEq

/-- Per-element body of the `multi_scalar_mul` validation loop (lines 41-81):
flag pre-check, point construction, low limb, high limb, scalar range. -/
def elemValidate (subCheck : Fp → Fp → Bool) (e : Elem) :
    Except BlackBoxResolutionError (GPoint × ℕ) :=
  if (1 : Fp).val < e.inf.val then
    .error (.Failed .MultiScalarMul malformedFlagMsg)
  else
    match create_point subCheck e.x e.y e.inf with
    | .error m => .error (.Failed .MultiScalarMul m)
    | .ok point =>
      match field_to_u128_limb e.lo .MultiScalarMul with
      | .error er => .error er
      | .ok scalar_low =>
        match field_to_u128_limb e.hi .MultiScalarMul with
        | .error er => .error er
        | .ok scalar_high =>
          match checkGrumpkinScalar scalar_low scalar_high with
          | .error er => .error er
          | .ok s => .ok (point, s)

/-- The `multi_scalar_mul` validation loop over the three raw sequences,
consuming `points` three elements at a time in ascending index order and
collecting the validated `(base, scalar)` pairs. -/
def msmValidate (subCheck : Fp → Fp → Bool) :
    List Fp → List Fp → List Fp →
      Except BlackBoxResolutionError (List (GPoint × ℕ))
  | x :: y :: inf :: ps, lo :: los, hi :: his =>
    match elemValidate subCheck ⟨x, y, inf, lo, hi⟩ with
    | .error e => .error e
    | .ok pq =>
      match msmValidate subCheck ps los his with
      | .error e => .error e
      | .ok rest => .ok (pq :: rest)
  | _, _, _ => .ok []

/-- Model of the external `ark_grumpkin::Projective::msm_bigint` followed by
the conversion to affine form: the sum of the per-pair scalar multiples,
accumulated left to right from the group identity. -/
def msm_bigint (ecAdd : GPoint → GPoint → GPoint) (ecSmul : ℕ → GPoint → GPoint)
    (batch : List (GPoint × ℕ)) : GPoint :=
  batch.foldl (fun acc pr => ecAdd acc (ecSmul pr.2 pr.1)) none

/-- Result shaping (lines 87-95 and 123-129): a finite affine point becomes
`(x, y, 0)` (in the `Some` branch `is_zero` is false, so the flag coordinate
`u128::from(is_zero)` is 0), the point at infinity becomes `(0, 0, 1)`. -/
def encodeResult : GPoint → Fp × Fp × Fp
  | some (x, y) => (x, y, 0)
  | none => (0, 0, 1)

/-- `multi_scalar_mul`: length precondition, per-element validation loop,
batch multi-scalar multiplication, result shaping. -/
def multi_scalar_mul (ecAdd : GPoint → GPoint → GPoint)
    (ecSmul : ℕ → GPoint → GPoint) (subCheck : Fp → Fp → Bool)
    (points scalars_lo scalars_hi : List Fp) :
    Except BlackBoxResolutionError (Fp × Fp × Fp) :=
  if points.length ≠ 3 * scalars_lo.length ∨ scalars_lo.length ≠ scalars_hi.length then
    .error (.Failed .MultiScalarMul "Points and scalars must have the same length")
  else
    match msmValidate subCheck points scalars_lo scalars_hi with
    | .error e => .error e
    | .ok batch => .ok (encodeResult (msm_bigint ecAdd ecSmul batch))

/-- `embedded_curve_add`: flag pre-checks on both operands, point validation,
rejection of infinite operands, then group addition and result shaping. -/
def embedded_curve_add (ecAdd : GPoint → GPoint → GPoint)
    (subCheck : Fp → Fp → Bool) (input1 input2 : Fp × Fp × Fp) :
    Except BlackBoxResolutionError (Fp × Fp × Fp) :=
  if (1 : Fp).val < input1.2.2.val ∨ (1 : Fp).val < input2.2.2.val then
    .error (.Failed .EmbeddedCurveAdd malformedFlagMsg)
  else
    match create_point subCheck input1.1 input1.2.1 input1.2.2 with
    | .error m => .error (.Failed .EmbeddedCurveAdd m)
    | .ok point1 =>
      match create_point subCheck input2.1 input2.2.1 input2.2.2 with
      | .error m => .error (.Failed .EmbeddedCurveAdd m)
      | .ok point2 =>
        if point1 = none ∨ point2 = none then
          .error (.Failed .EmbeddedCurveAdd
            ("Infinite input: embedded_curve_add(" ++ dispPoint point1 ++ ", "
              ++ dispPoint point2 ++ ")"))
        else .ok (encodeResult (ecAdd point1 point2))

/-- The flattened `points` sequence of a batch of elements. -/
def pointsOf (l : List Elem) : List Fp :=
  l.flatMap fun e => [e.x, e.y, e.inf]

/-- The `scalars_lo` sequence of a batch of elements. -/
def losOf (l : List Elem) : List Fp := l.map Elem.lo

/-- The `scalars_hi` sequence of a batch of elements. -/
def hisOf (l : List Elem) : List Fp := l.map Elem.hi

/-- The `(base, scalar)` pair an element validates to when it is valid. -/
def validatedPair (e : Elem) : GPoint × ℕ :=
  (if e.inf = 1 then none else some (e.x, e.y), e.hi.val * 2 ^ 128 + e.lo.val)

/-- A fully valid batch element: boolean infinity flag with a point passing
the curve and subgroup checks when finite, limbs below `2^128`, and a
reconstructed scalar below the grumpkin scalar-field order. -/
def ElemOk (subCheck : Fp → Fp → Bool) (e : Elem) : Prop :=
  (e.inf = 1 ∨ (e.inf = 0 ∧ is_on_curve e.x e.y ∧ subCheck e.x e.y = true))
  ∧ e.lo.val < 2 ^ 128 ∧ e.hi.val < 2 ^ 128
  ∧ e.hi.val * 2 ^ 128 + e.lo.val < grumpkinScalarModulus

instance (subCheck : Fp → Fp → Bool) (e : Elem) : Decidable (ElemOk subCheck e) := by
  unfold ElemOk
  infer_instance

/-- Modelled from the spec: "the result of summing, via repeated
single-scalar multiplication and addition, each point times its
reconstructed scalar" — the reference computation `MultiScalarMul` is
compared against. -/
def referenceMSM (ecAdd : GPoint → GPoint → GPoint)
    (ecSmul : ℕ → GPoint → GPoint) (prs : List (GPoint × ℕ)) : GPoint :=
  (prs.map fun pr => ecSmul pr.2 pr.1).foldl ecAdd none

/-! ### Concrete engine instances used to exercise the statements -/

/-- A concrete commutative, associative instance for the abstract engine
addition: componentwise field addition on finite points, with `none` as the
neutral element. -/
def wAdd : GPoint → GPoint → GPoint
  | none, b => b
  | a, none => a
  | some p, some q => some (p.1 + q.1, p.2 + q.2)

/-- A concrete instance for the abstract engine scalar multiplication. -/
def wSmul : ℕ → GPoint → GPoint
  | _, none => none
  | n, some p => some ((n : Fp) * p.1, (n : Fp) * p.2)

/-- A subgroup test that accepts every point. -/
def sTrue : Fp → Fp → Bool := fun _ _ => true

/-- A subgroup test that rejects every point. -/
def sFalse : Fp → Fp → Bool := fun _ _ => false

/-- x-coordinate of the grumpkin generator. -/
def genX : Fp := 1

/-- y-coordinate of the grumpkin generator. -/
def genY : Fp := 17631683881184975370165255887551781615748388533673675138860

/-! ### Basic facts about the renderings and the field -/

lemma hexChars_length (k n : ℕ) : (hexChars k n).length = k := by
  induction k generalizing n with
  | zero => rfl
  | succ k ih => simp [hexChars, ih]

lemma hexPad_length (k n : ℕ) : (hexPad k n).length = k := by
  show (hexChars k n).length = k
  exact hexChars_length k n

lemma toHex_length (a : Fp) : (toHex a).length = 64 := hexPad_length 64 a.val

lemma val_eq_one_iff (a : Fp) : a.val = 1 ↔ a = 1 := by
  constructor
  · intro h
    have h2 := ZMod.natCast_rightInverse (n := pBase) a
    rw [← h2, h]
    norm_num
  · intro h
    rw [h]
    exact ZMod.val_one pBase

lemma one_val_lt_iff (a : Fp) : (1 : Fp).val < a.val ↔ ¬(a = 0 ∨ a = 1) := by
  rw [ZMod.val_one]
  constructor
  · rintro h (rfl | rfl)
    · simp [ZMod.val_zero] at h
    · rw [ZMod.val_one] at h
      omega
  · intro h
    have h0 : a.val ≠ 0 := fun hv => h (Or.inl ((ZMod.val_eq_zero a).mp hv))
    have h1 : a.val ≠ 1 := fun hv => h (Or.inr ((val_eq_one_iff a).mp hv))
    omega

lemma not_one_val_lt_zero : ¬ (1 : Fp).val < (0 : Fp).val := by
  rw [ZMod.val_one, ZMod.val_zero]
  omega

lemma not_one_val_lt_one : ¬ (1 : Fp).val < (1 : Fp).val := by
  omega

/-- For limbs below `2^128`, the four-word reassembly in
`checkGrumpkinScalar` computes exactly `hi * 2^128 + lo`. -/
lemma limbs_recompose {lo hi : ℕ} (hlo : lo < 2 ^ 128) (hhi : hi < 2 ^ 128) :
    lo % 2 ^ 64 + lo / 2 ^ 64 % 2 ^ 64 * 2 ^ 64 + hi % 2 ^ 64 * 2 ^ 128
      + hi / 2 ^ 64 % 2 ^ 64 * 2 ^ 192 = hi * 2 ^ 128 + lo := by
  have hlo2 : lo / 2 ^ 64 < 2 ^ 64 := by omega
  have hhi2 : hi / 2 ^ 64 < 2 ^ 64 := by omega
  rw [Nat.mod_eq_of_lt hlo2, Nat.mod_eq_of_lt hhi2]
  omega

lemma checkGrumpkinScalar_ok {lo hi : ℕ} (hlo : lo < 2 ^ 128) (hhi : hi < 2 ^ 128)
    (hs : hi * 2 ^ 128 + lo < grumpkinScalarModulus) :
    checkGrumpkinScalar lo hi = .ok (hi * 2 ^ 128 + lo) := by
  unfold checkGrumpkinScalar
  rw [limbs_recompose hlo hhi, if_neg (Nat.not_le.mpr hs)]

lemma checkGrumpkinScalar_error {lo hi : ℕ} (hlo : lo < 2 ^ 128) (hhi : hi < 2 ^ 128)
    (hs : grumpkinScalarModulus ≤ hi * 2 ^ 128 + lo) :
    checkGrumpkinScalar lo hi = .error (.Failed .MultiScalarMul
      (hexPad 16 (hi / 2 ^ 64) ++ hexPad 16 (hi % 2 ^ 64) ++ hexPad 16 (lo / 2 ^ 64)
        ++ hexPad 16 (lo % 2 ^ 64) ++ " is not a valid grumpkin scalar")) := by
  have hlo2 : lo / 2 ^ 64 < 2 ^ 64 := by omega
  have hhi2 : hi / 2 ^ 64 < 2 ^ 64 := by omega
  unfold checkGrumpkinScalar
  rw [limbs_recompose hlo hhi, if_pos hs, Nat.mod_eq_of_lt hlo2, Nat.mod_eq_of_lt hhi2]

/-! ### Structural lemmas about the validation loop -/

lemma pointsOf_cons (e : Elem) (l : List Elem) :
    pointsOf (e :: l) = e.x :: e.y :: e.inf :: pointsOf l := by
  simp [pointsOf]

lemma pointsOf_length (l : List Elem) : (pointsOf l).length = 3 * l.length := by
  induction l with
  | nil => rfl
  | cons e t ih => rw [pointsOf_cons]; simp [ih]; omega

lemma msmValidate_cons (subCheck : Fp → Fp → Bool) (e : Elem) (l : List Elem) :
    msmValidate subCheck (pointsOf (e :: l)) (losOf (e :: l)) (hisOf (e :: l))
      = match elemValidate subCheck e with
        | .error er => .error er
        | .ok pq =>
          match msmValidate subCheck (pointsOf l) (losOf l) (hisOf l) with
          | .error er => .error er
          | .ok rest => .ok (pq :: rest) := by
  rw [pointsOf_cons]
  rfl

lemma elemValidate_of_ok (subCheck : Fp → Fp → Bool) (e : Elem)
    (he : ElemOk subCheck e) :
    elemValidate subCheck e = .ok (validatedPair e) := by
  obtain ⟨hflag, hlo, hhi, hs⟩ := he
  unfold elemValidate
  have hnotlt : ¬ (1 : Fp).val < e.inf.val := by
    rcases hflag with h1 | ⟨h0, _, _⟩
    · rw [h1]; exact not_one_val_lt_one
    · rw [h0]; exact not_one_val_lt_zero
  rw [if_neg hnotlt]
  have hcp : create_point subCheck e.x e.y e.inf
      = .ok (if e.inf = 1 then none else some (e.x, e.y)) := by
    unfold create_point
    rcases hflag with h1 | ⟨h0, hcurve, hsub⟩
    · rw [if_pos h1, if_pos h1]
    · have hne1 : e.inf ≠ 1 := by rw [h0]; intro hc; exact one_ne_zero hc.symm
      rw [if_neg hne1, if_pos h0, if_pos hcurve, if_pos hsub, if_neg hne1]
  rw [hcp]
  unfold field_to_u128_limb
  rw [if_pos hlo, if_pos hhi]
  simp only [checkGrumpkinScalar_ok hlo hhi hs, validatedPair]

lemma msmValidate_ok (subCheck : Fp → Fp → Bool) (l : List Elem)
    (h : ∀ e ∈ l, ElemOk subCheck e) :
    msmValidate subCheck (pointsOf l) (losOf l) (hisOf l)
      = .ok (l.map validatedPair) := by
  induction l with
  | nil => rfl
  | cons e t ih =>
    rw [msmValidate_cons, elemValidate_of_ok subCheck e (h e (List.mem_cons_self e t)),
      ih (fun e' he' => h e' (List.mem_cons_of_mem e he'))]
    rfl

lemma multi_scalar_mul_of_validate (ecAdd : GPoint → GPoint → GPoint)
    (ecSmul : ℕ → GPoint → GPoint) (subCheck : Fp → Fp → Bool) (l : List Elem)
    (batch : List (GPoint × ℕ))
    (h : msmValidate subCheck (pointsOf l) (losOf l) (hisOf l) = .ok batch) :
    multi_scalar_mul ecAdd ecSmul subCheck (pointsOf l) (losOf l) (hisOf l)
      = .ok (encodeResult (msm_bigint ecAdd ecSmul batch)) := by
  have hlen : ¬((pointsOf l).length ≠ 3 * (losOf l).length
      ∨ (losOf l).length ≠ (hisOf l).length) := by
    rw [pointsOf_length]
    simp [losOf, hisOf]
  unfold multi_scalar_mul
  rw [if_neg hlen, h]

lemma multi_scalar_mul_of_validate_error (ecAdd : GPoint → GPoint → GPoint)
    (ecSmul : ℕ → GPoint → GPoint) (subCheck : Fp → Fp → Bool) (l : List Elem)
    (er : BlackBoxResolutionError)
    (h : msmValidate subCheck (pointsOf l) (losOf l) (hisOf l) = .error er) :
    multi_scalar_mul ecAdd ecSmul subCheck (pointsOf l) (losOf l) (hisOf l)
      = .error er := by
  have hlen : ¬((pointsOf l).length ≠ 3 * (losOf l).length
      ∨ (losOf l).length ≠ (hisOf l).length) := by
    rw [pointsOf_length]
    simp [losOf, hisOf]
  unfold multi_scalar_mul
  rw [if_neg hlen, h]

lemma msmValidate_append_error (subCheck : Fp → Fp → Bool) (pre : List Elem)
    (e : Elem) (rest : List Elem) (er : BlackBoxResolutionError)
    (hpre : ∀ e' ∈ pre, ElemOk subCheck e')
    (he : elemValidate subCheck e = .error er) :
    msmValidate subCheck (pointsOf (pre ++ e :: rest)) (losOf (pre ++ e :: rest))
      (hisOf (pre ++ e :: rest)) = .error er := by
  induction pre with
  | nil =>
    rw [List.nil_append, msmValidate_cons, he]
  | cons p t ih =>
    rw [List.cons_append, msmValidate_cons,
      elemValidate_of_ok subCheck p (hpre p (List.mem_cons_self p t)),
      ih (fun e' he' => hpre e' (List.mem_cons_of_mem p he'))]


/-! ### Characterization of the errors the validation loop can produce -/

lemma notOnCurveMsg_length (x y : Fp) :
    ("Point (" ++ toHex x ++ ", " ++ toHex y ++ ") is not on curve").length = 154 := by
  simp [String.length_append, toHex_length]
  decide

lemma notInSubgroupMsg_length (x y : Fp) :
    ("Point (" ++ toHex x ++ ", " ++ toHex y ++ ") is not in correct subgroup").length = 165 := by
  simp [String.length_append, toHex_length]
  decide

lemma limbMsg_length (a : Fp) :
    ("Limb " ++ toHex a ++ " is not less than 2^128").length = 92 := by
  simp [String.length_append, toHex_length]
  decide

lemma scalarMsg_length (a b c d : ℕ) :
    (hexPad 16 a ++ hexPad 16 b ++ hexPad 16 c ++ hexPad 16 d
      ++ " is not a valid grumpkin scalar").length = 95 := by
  simp [String.length_append, hexPad_length]
  decide

lemma field_to_u128_limb_error (limb : Fp) (func : BlackBoxFunc)
    (er : BlackBoxResolutionError) (h : field_to_u128_limb limb func = .error er) :
    2 ^ 128 ≤ limb.val
      ∧ er = .Failed func ("Limb " ++ toHex limb ++ " is not less than 2^128") := by
  unfold field_to_u128_limb at h
  by_cases hv : limb.val < 2 ^ 128
  · rw [if_pos hv] at h
    exact Except.noConfusion h
  · rw [if_neg hv] at h
    injection h with h
    exact ⟨Nat.le_of_not_lt hv, h.symm⟩

lemma checkGrumpkinScalar_error_msg (lo hi : ℕ) (er : BlackBoxResolutionError)
    (h : checkGrumpkinScalar lo hi = .error er) :
    er = .Failed .MultiScalarMul
      (hexPad 16 (hi / 2 ^ 64 % 2 ^ 64) ++ hexPad 16 (hi % 2 ^ 64)
        ++ hexPad 16 (lo / 2 ^ 64 % 2 ^ 64) ++ hexPad 16 (lo % 2 ^ 64)
        ++ " is not a valid grumpkin scalar") := by
  unfold checkGrumpkinScalar at h
  by_cases hc : grumpkinScalarModulus ≤ lo % 2 ^ 64 + lo / 2 ^ 64 % 2 ^ 64 * 2 ^ 64
      + hi % 2 ^ 64 * 2 ^ 128 + hi / 2 ^ 64 % 2 ^ 64 * 2 ^ 192
  · rw [if_pos hc] at h
    injection h with h
    exact h.symm
  · rw [if_neg hc] at h
    exact Except.noConfusion h

lemma create_point_error_msg (subCheck : Fp → Fp → Bool) (x y inf : Fp) (m : String)
    (h : create_point subCheck x y inf = .error m) :
    m = "`is_infinite` flag is non-boolean" ∨ m.length = 165 ∨ m.length = 154 := by
  unfold create_point at h
  split_ifs at h with h1 h2 h3 h4 <;>
    simp only [reduceCtorEq, Except.error.injEq] at h <;>
    subst h
  · exact Or.inr (Or.inl (notInSubgroupMsg_length x y))
  · exact Or.inr (Or.inr (notOnCurveMsg_length x y))
  · exact Or.inl rfl

lemma elemValidate_error_msg (subCheck : Fp → Fp → Bool) (e : Elem)
    (er : BlackBoxResolutionError) (h : elemValidate subCheck e = .error er) :
    ∃ m, er = .Failed .MultiScalarMul m ∧
      (m = malformedFlagMsg ∨ m = "`is_infinite` flag is non-boolean"
       ∨ m.length = 165 ∨ m.length = 154 ∨ m.length = 92 ∨ m.length = 95) := by
  unfold elemValidate at h
  split_ifs at h with h1
  · injection h with h
    exact ⟨malformedFlagMsg, h.symm, Or.inl rfl⟩
  · split at h
    next m heq =>
      injection h with h
      rcases create_point_error_msg subCheck e.x e.y e.inf m heq with h2 | h2 | h2
      · exact ⟨m, h.symm, Or.inr (Or.inl h2)⟩
      · exact ⟨m, h.symm, Or.inr (Or.inr (Or.inl h2))⟩
      · exact ⟨m, h.symm, Or.inr (Or.inr (Or.inr (Or.inl h2)))⟩
    next point heq =>
      split at h
      next er2 heq2 =>
        injection h with h
        obtain ⟨_, h2⟩ := field_to_u128_limb_error e.lo .MultiScalarMul er2 heq2
        subst h
        exact ⟨_, h2, Or.inr (Or.inr (Or.inr (Or.inr (Or.inl (limbMsg_length e.lo)))))⟩
      next scalar_low heq2 =>
        split at h
        next er2 heq3 =>
          injection h with h
          obtain ⟨_, h2⟩ := field_to_u128_limb_error e.hi .MultiScalarMul er2 heq3
          subst h
          exact ⟨_, h2, Or.inr (Or.inr (Or.inr (Or.inr (Or.inl (limbMsg_length e.hi)))))⟩
        next scalar_high heq3 =>
          split at h
          next er2 heq4 =>
            injection h with h
            have h2 := checkGrumpkinScalar_error_msg scalar_low scalar_high er2 heq4
            subst h
            exact ⟨_, h2, Or.inr (Or.inr (Or.inr (Or.inr (Or.inr (scalarMsg_length _ _ _ _)))))⟩
          next s heq4 =>
            exact absurd h (by simp)

lemma msmValidate_error_msg (subCheck : Fp → Fp → Bool) :
    ∀ (ps los his : List Fp) (er : BlackBoxResolutionError),
      msmValidate subCheck ps los his = .error er →
      ∃ m, er = .Failed .MultiScalarMul m ∧
        (m = malformedFlagMsg ∨ m = "`is_infinite` flag is non-boolean"
         ∨ m.length = 165 ∨ m.length = 154 ∨ m.length = 92 ∨ m.length = 95)
  | x :: y :: inf :: ps, lo :: los, hi :: his, er => by
    intro h
    rw [msmValidate] at h
    split at h
    next er2 heq =>
      injection h with h
      subst h
      exact elemValidate_error_msg subCheck ⟨x, y, inf, lo, hi⟩ _ heq
    next pq heq =>
      split at h
      next er2 heq2 =>
        injection h with h
        subst h
        exact msmValidate_error_msg subCheck ps los his _ heq2
      next rest heq2 =>
        exact absurd h (by simp)
  | [], los, his, er => fun h => Except.noConfusion h
  | [x], los, his, er => fun h => Except.noConfusion h
  | [x, y], los, his, er => fun h => Except.noConfusion h
  | x :: y :: inf :: ps, [], his, er => fun h => Except.noConfusion h
  | x :: y :: inf :: ps, lo :: los, [], er => fun h => Except.noConfusion h

lemma wAdd_comm (a b : GPoint) : wAdd a b = wAdd b a := by
  cases a <;> cases b <;> simp [wAdd, add_comm]

lemma wAdd_assoc (a b c : GPoint) : wAdd (wAdd a b) c = wAdd a (wAdd b c) := by
  cases a <;> cases b <;> cases c <;> simp [wAdd, add_assoc]

lemma foldl_ecAdd_perm (ecAdd : GPoint → GPoint → GPoint)
    (hcomm : ∀ a b, ecAdd a b = ecAdd b a)
    (hassoc : ∀ a b c, ecAdd (ecAdd a b) c = ecAdd a (ecAdd b c))
    {l₁ l₂ : List GPoint} (hp : l₁.Perm l₂) (z : GPoint) :
    l₁.foldl ecAdd z = l₂.foldl ecAdd z :=
  hp.foldl_eq' (fun x _ y _ w => by rw [hassoc, hassoc, hcomm x y]) z

/-! ### Claim theorems -/

/-- C10: with all three input sequences empty, `multi_scalar_mul` succeeds:
the empty batch passes the length precondition, the batch sum is the group
identity, and the canonical identity triple `(0, 0, 1)` is returned. -/
theorem msm_empty_batch (ecAdd : GPoint → GPoint → GPoint)
    (ecSmul : ℕ → GPoint → GPoint) (subCheck : Fp → Fp → Bool) :
    multi_scalar_mul ecAdd ecSmul subCheck [] [] [] = .ok (0, 0, 1) := rfl

/-- C8: `multi_scalar_mul` fails with the message "Points and scalars must
have the same length" exactly when `points.length ≠ 3 * scalars_lo.length`
or `scalars_lo.length ≠ scalars_hi.length`, regardless of the content of
the sequences (the check precedes all per-element validation, so no other
input feature can produce or suppress this error). -/
theorem msm_length_mismatch (ecAdd : GPoint → GPoint → GPoint)
    (ecSmul : ℕ → GPoint → GPoint) (subCheck : Fp → Fp → Bool)
    (points scalars_lo scalars_hi : List Fp) :
    multi_scalar_mul ecAdd ecSmul subCheck points scalars_lo scalars_hi
        = .error (.Failed .MultiScalarMul "Points and scalars must have the same length")
      ↔ (points.length ≠ 3 * scalars_lo.length
        ∨ scalars_lo.length ≠ scalars_hi.length) := by
  constructor
  · intro h
    by_contra hc
    unfold multi_scalar_mul at h
    rw [if_neg hc] at h
    revert h
    cases hmv : msmValidate subCheck points scalars_lo scalars_hi with
    | error er =>
      intro h
      injection h with h
      obtain ⟨m, hm, hprop⟩ := msmValidate_error_msg subCheck _ _ _ _ hmv
      rw [hm] at h
      injection h with _ h
      rcases hprop with h2 | h2 | h2 | h2 | h2 | h2
      · rw [h2] at h
        exact absurd h (by decide)
      · rw [h2] at h
        exact absurd h (by decide)
      all_goals
        rw [h] at h2
        exact absurd h2 (by decide)
    | ok batch =>
      intro h
      exact Except.noConfusion h
  · intro h
    unfold multi_scalar_mul
    rw [if_pos h]

/-- C6: narrowing a scalar limb to `u128` fails exactly when the element's
integer representative is at least `2^128`, and in either limb position of
the `multi_scalar_mul` loop the failure carries the message
"Limb {hex} is not less than 2^128" with that limb's canonical zero-padded
lowercase hex rendering. -/
theorem limb_to_u128_bound (a : Fp) (func : BlackBoxFunc)
    (subCheck : Fp → Fp → Bool) (x y inf lo hi : Fp) :
    (field_to_u128_limb a func
        = .error (.Failed func ("Limb " ++ toHex a ++ " is not less than 2^128"))
      ↔ 2 ^ 128 ≤ a.val)
    ∧ (a.val < 2 ^ 128 → field_to_u128_limb a func = .ok a.val)
    ∧ (∀ P, ¬ (1 : Fp).val < inf.val → create_point subCheck x y inf = .ok P →
        2 ^ 128 ≤ lo.val →
        elemValidate subCheck ⟨x, y, inf, lo, hi⟩
          = .error (.Failed .MultiScalarMul
              ("Limb " ++ toHex lo ++ " is not less than 2^128")))
    ∧ (∀ P, ¬ (1 : Fp).val < inf.val → create_point subCheck x y inf = .ok P →
        lo.val < 2 ^ 128 → 2 ^ 128 ≤ hi.val →
        elemValidate subCheck ⟨x, y, inf, lo, hi⟩
          = .error (.Failed .MultiScalarMul
              ("Limb " ++ toHex hi ++ " is not less than 2^128"))) := by
  refine ⟨?_, ?_, ?_, ?_⟩
  · constructor
    · intro h
      by_cases hv : a.val < 2 ^ 128
      · unfold field_to_u128_limb at h
        rw [if_pos hv] at h
        exact Except.noConfusion h
      · exact Nat.le_of_not_lt hv
    · intro hv
      unfold field_to_u128_limb
      rw [if_neg (Nat.not_lt.mpr hv)]
  · intro hv
    unfold field_to_u128_limb
    rw [if_pos hv]
  · intro P hflag hcp hlo
    unfold elemValidate
    rw [if_neg hflag, hcp]
    unfold field_to_u128_limb
    rw [if_neg (Nat.not_lt.mpr hlo)]
  · intro P hflag hcp hlo hhi
    unfold elemValidate
    rw [if_neg hflag, hcp]
    unfold field_to_u128_limb
    rw [if_pos hlo, if_neg (Nat.not_lt.mpr hhi)]

set_option maxRecDepth 10000 in
/-- Witness for C6: the limb `2^128` (the spec's example) is rejected with
the expected 64-hex-digit rendering in the message. -/
theorem limb_to_u128_bound_witness :
    field_to_u128_limb (2 ^ 128 : Fp) .MultiScalarMul
      = .error (.Failed .MultiScalarMul ("Limb " ++ toHex (2 ^ 128 : Fp)
          ++ " is not less than 2^128"))
    ∧ toHex (2 ^ 128 : Fp)
      = "0000000000000000000000000000000100000000000000000000000000000000" :=
  ⟨(limb_to_u128_bound (2 ^ 128 : Fp) .MultiScalarMul sTrue 0 0 0 0 0).1.mpr (by decide),
    by decide⟩

/-- C5: for limbs `lo, hi` below `2^128`, scalar decoding fails exactly when
the reconstructed value `hi * 2^128 + lo` is not strictly below the grumpkin
scalar-field order, with the message "{hex256} is not a valid grumpkin
scalar" where `hex256` concatenates the four 64-bit words
(hi_high64, hi_low64, lo_high64, lo_low64) as 16-hex-digit groups, most
significant first; otherwise the reconstructed value is returned. -/
theorem scalar_range_check_iff (lo hi : ℕ) (hlo : lo < 2 ^ 128) (hhi : hi < 2 ^ 128) :
    (checkGrumpkinScalar lo hi = .error (.Failed .MultiScalarMul
        (hexPad 16 (hi / 2 ^ 64) ++ hexPad 16 (hi % 2 ^ 64) ++ hexPad 16 (lo / 2 ^ 64)
          ++ hexPad 16 (lo % 2 ^ 64) ++ " is not a valid grumpkin scalar"))
      ↔ grumpkinScalarModulus ≤ hi * 2 ^ 128 + lo)
    ∧ (hi * 2 ^ 128 + lo < grumpkinScalarModulus
        → checkGrumpkinScalar lo hi = .ok (hi * 2 ^ 128 + lo)) := by
  constructor
  · constructor
    · intro h
      by_contra hc
      rw [checkGrumpkinScalar_ok hlo hhi (Nat.lt_of_not_le hc)] at h
      exact Except.noConfusion h
    · intro hs
      exact checkGrumpkinScalar_error hlo hhi hs
  · intro hs
    exact checkGrumpkinScalar_ok hlo hhi hs

set_option maxRecDepth 10000 in
/-- Witness for C5: the grumpkin scalar-field order itself, split into its
128-bit halves, is rejected with exactly the hex rendering the spec cites. -/
theorem scalar_range_check_iff_witness :
    checkGrumpkinScalar 0x97816a916871ca8d3c208c16d87cfd47 0x30644e72e131a029b85045b68181585d
      = .error (.Failed .MultiScalarMul
          "30644e72e131a029b85045b68181585d97816a916871ca8d3c208c16d87cfd47 is not a valid grumpkin scalar") := by
  have h := (scalar_range_check_iff 0x97816a916871ca8d3c208c16d87cfd47
    0x30644e72e131a029b85045b68181585d (by decide) (by decide)).1.mpr (by decide)
  rw [h]
  rfl

lemma elemValidate_cp_error (subCheck : Fp → Fp → Bool) (x y inf lo hi : Fp)
    (m : String) (hflag : ¬ (1 : Fp).val < inf.val)
    (hcp : create_point subCheck x y inf = .error m) :
    elemValidate subCheck ⟨x, y, inf, lo, hi⟩
      = .error (.Failed .MultiScalarMul m) := by
  unfold elemValidate
  rw [if_neg hflag, hcp]

/-- C4: a finite-flagged triple whose coordinates do not satisfy the affine
curve equation is rejected with "Point ({x_hex}, {y_hex}) is not on curve",
and one on the curve but failing the subgroup test with "Point ({x_hex},
{y_hex}) is not in correct subgroup", with zero-padded lowercase canonical
hex coordinates; both `multi_scalar_mul` and `embedded_curve_add` surface
these messages tagged with their own opcode. -/
theorem create_point_curve_and_subgroup (subCheck : Fp → Fp → Bool)
    (ecAdd : GPoint → GPoint → GPoint) (ecSmul : ℕ → GPoint → GPoint)
    (x y lo hi : Fp) (rest : List Elem) (input2 : Fp × Fp × Fp)
    (hin2 : ¬ (1 : Fp).val < input2.2.2.val) :
    (¬ is_on_curve x y → create_point subCheck x y 0
      = .error ("Point (" ++ toHex x ++ ", " ++ toHex y ++ ") is not on curve"))
    ∧ (is_on_curve x y → subCheck x y = false → create_point subCheck x y 0
      = .error ("Point (" ++ toHex x ++ ", " ++ toHex y ++ ") is not in correct subgroup"))
    ∧ (¬ is_on_curve x y →
      multi_scalar_mul ecAdd ecSmul subCheck (pointsOf (⟨x, y, 0, lo, hi⟩ :: rest))
          (losOf (⟨x, y, 0, lo, hi⟩ :: rest)) (hisOf (⟨x, y, 0, lo, hi⟩ :: rest))
        = .error (.Failed .MultiScalarMul
            ("Point (" ++ toHex x ++ ", " ++ toHex y ++ ") is not on curve")))
    ∧ (is_on_curve x y → subCheck x y = false →
      multi_scalar_mul ecAdd ecSmul subCheck (pointsOf (⟨x, y, 0, lo, hi⟩ :: rest))
          (losOf (⟨x, y, 0, lo, hi⟩ :: rest)) (hisOf (⟨x, y, 0, lo, hi⟩ :: rest))
        = .error (.Failed .MultiScalarMul
            ("Point (" ++ toHex x ++ ", " ++ toHex y ++ ") is not in correct subgroup")))
    ∧ (¬ is_on_curve x y →
      embedded_curve_add ecAdd subCheck (x, y, 0) input2
        = .error (.Failed .EmbeddedCurveAdd
            ("Point (" ++ toHex x ++ ", " ++ toHex y ++ ") is not on curve")))
    ∧ (is_on_curve x y → subCheck x y = false →
      embedded_curve_add ecAdd subCheck (x, y, 0) input2
        = .error (.Failed .EmbeddedCurveAdd
            ("Point (" ++ toHex x ++ ", " ++ toHex y ++ ") is not in correct subgroup"))) := by
  have h01 : ((0 : Fp) = 1) = False := by simp
  have hcp1 : ¬ is_on_curve x y → create_point subCheck x y 0
      = .error ("Point (" ++ toHex x ++ ", " ++ toHex y ++ ") is not on curve") := by
    intro hnc
    unfold create_point
    rw [if_neg (by simp), if_pos rfl, if_neg hnc]
  have hcp2 : is_on_curve x y → subCheck x y = false → create_point subCheck x y 0
      = .error ("Point (" ++ toHex x ++ ", " ++ toHex y ++ ") is not in correct subgroup") := by
    intro hc hsub
    unfold create_point
    rw [if_neg (by simp : ¬ (0 : Fp) = 1), if_pos rfl, if_pos hc,
      if_neg (by simp [hsub])]
  have hnil : ∀ e' ∈ ([] : List Elem), ElemOk subCheck e' :=
    fun e' he' => absurd he' (List.not_mem_nil e')
  refine ⟨hcp1, hcp2, ?_, ?_, ?_, ?_⟩
  · intro hnc
    exact multi_scalar_mul_of_validate_error ecAdd ecSmul subCheck _ _
      (msmValidate_append_error subCheck [] ⟨x, y, 0, lo, hi⟩ rest _ hnil
        (elemValidate_cp_error subCheck x y 0 lo hi _ not_one_val_lt_zero (hcp1 hnc)))
  · intro hc hsub
    exact multi_scalar_mul_of_validate_error ecAdd ecSmul subCheck _ _
      (msmValidate_append_error subCheck [] ⟨x, y, 0, lo, hi⟩ rest _ hnil
        (elemValidate_cp_error subCheck x y 0 lo hi _ not_one_val_lt_zero (hcp2 hc hsub)))
  · intro hnc
    unfold embedded_curve_add
    rw [if_neg (not_or.mpr ⟨not_one_val_lt_zero, hin2⟩), hcp1 hnc]
  · intro hc hsub
    unfold embedded_curve_add
    rw [if_neg (not_or.mpr ⟨not_one_val_lt_zero, hin2⟩), hcp2 hc hsub]

set_option maxRecDepth 10000 in
/-- Witness for C4: the off-curve point (1, 1) is rejected with the exact
padded-hex message from the source's tests, and the generator under a
rejecting subgroup test is reported outside the subgroup. -/
theorem create_point_curve_and_subgroup_witness :
    create_point sTrue 1 1 0
      = .error "Point (0000000000000000000000000000000000000000000000000000000000000001, 0000000000000000000000000000000000000000000000000000000000000001) is not on curve"
    ∧ create_point sFalse genX genY 0
      = .error ("Point (" ++ toHex genX ++ ", " ++ toHex genY ++ ") is not in correct subgroup") := by
  constructor
  · have h := (create_point_curve_and_subgroup sTrue wAdd wSmul 1 1 0 0 [] (1, 1, 0)
      (by decide)).1 (by decide)
    rw [h]
    rfl
  · exact (create_point_curve_and_subgroup sFalse wAdd wSmul genX genY 0 0 [] (1, 1, 0)
      (by decide)).2.1 (by decide) rfl

/-- C7: for operands passing the flag and point validation,
`embedded_curve_add` fails with "Infinite input:
embedded_curve_add({p1}, {p2})" (naming both operands via their arkworks
display form) exactly when at least one validated operand is the group
identity — the rejection applies even though adding the identity is
mathematically well defined. -/
theorem embedded_curve_add_infinite_reject (ecAdd : GPoint → GPoint → GPoint)
    (subCheck : Fp → Fp → Bool) (input1 input2 : Fp × Fp × Fp) (q1 q2 : GPoint)
    (h1 : ¬ (1 : Fp).val < input1.2.2.val) (h2 : ¬ (1 : Fp).val < input2.2.2.val)
    (hc1 : create_point subCheck input1.1 input1.2.1 input1.2.2 = .ok q1)
    (hc2 : create_point subCheck input2.1 input2.2.1 input2.2.2 = .ok q2) :
    embedded_curve_add ecAdd subCheck input1 input2
        = .error (.Failed .EmbeddedCurveAdd ("Infinite input: embedded_curve_add("
            ++ dispPoint q1 ++ ", " ++ dispPoint q2 ++ ")"))
      ↔ (q1 = none ∨ q2 = none) := by
  unfold embedded_curve_add
  rw [if_neg (not_or.mpr ⟨h1, h2⟩), hc1, hc2]
  show (if q1 = none ∨ q2 = none then _ else _) = _ ↔ _
  by_cases hq : q1 = none ∨ q2 = none
  · rw [if_pos hq]
    simp [hq]
  · rw [if_neg hq]
    constructor
    · intro h
      exact Except.noConfusion h
    · intro h
      exact absurd h hq

/-- Witness for C7: two infinity operands are rejected with the exact
message expected by the source's test. -/
theorem embedded_curve_add_infinite_reject_witness :
    embedded_curve_add wAdd sTrue (1, 1, 1) (1, 1, 1)
      = .error (.Failed .EmbeddedCurveAdd
          "Infinite input: embedded_curve_add(infinity, infinity)") := by
  have h := (embedded_curve_add_infinite_reject wAdd sTrue (1, 1, 1) (1, 1, 1)
    none none (by decide) (by decide) rfl rfl).mpr (Or.inl rfl)
  rw [h]
  rfl

/-- Counterexample for C9: the point validator's own non-boolean-flag
branch does not produce the message "EmbeddedCurvePoint is malformed
(non-boolean `is_infinite` flag)"; at flag value 2 it produces the distinct
message "`is_infinite` flag is non-boolean". -/
theorem flag_check_message_counterexample :
    create_point sTrue 1 1 2 = .error "`is_infinite` flag is non-boolean"
    ∧ "`is_infinite` flag is non-boolean" ≠ malformedFlagMsg := by
  constructor
  · rfl
  · decide

/-- C9 (amended): the per-element pre-check `points[3i+2] > 1` of
`multi_scalar_mul` is semantically identical to the validator's own
non-boolean-flag check — both reject exactly the flags that are neither 0
nor 1 — and `multi_scalar_mul` reports every such element with the message
"EmbeddedCurvePoint is malformed (non-boolean `is_infinite` flag)"; the
validator's own branch, unreachable from the public operations because the
pre-checks run first, carries the different message "`is_infinite` flag is
non-boolean". -/
theorem flag_check_equivalence (subCheck : Fp → Fp → Bool)
    (ecAdd : GPoint → GPoint → GPoint) (ecSmul : ℕ → GPoint → GPoint)
    (x y inf lo hi : Fp) (rest : List Elem) :
    ((1 : Fp).val < inf.val ↔ ¬(inf = 0 ∨ inf = 1))
    ∧ ((1 : Fp).val < inf.val →
        multi_scalar_mul ecAdd ecSmul subCheck (pointsOf (⟨x, y, inf, lo, hi⟩ :: rest))
          (losOf (⟨x, y, inf, lo, hi⟩ :: rest)) (hisOf (⟨x, y, inf, lo, hi⟩ :: rest))
        = .error (.Failed .MultiScalarMul malformedFlagMsg))
    ∧ ((1 : Fp).val < inf.val →
        create_point subCheck x y inf = .error "`is_infinite` flag is non-boolean") := by
  refine ⟨one_val_lt_iff inf, ?_, ?_⟩
  · intro hlt
    have he : elemValidate subCheck ⟨x, y, inf, lo, hi⟩
        = .error (.Failed .MultiScalarMul malformedFlagMsg) := by
      unfold elemValidate
      rw [if_pos hlt]
    exact multi_scalar_mul_of_validate_error ecAdd ecSmul subCheck _ _
      (msmValidate_append_error subCheck [] ⟨x, y, inf, lo, hi⟩ rest _
        (fun e' he' => absurd he' (List.not_mem_nil e')) he)
  · intro hlt
    have h := (one_val_lt_iff inf).mp hlt
    unfold create_point
    rw [if_neg (fun h1 => h (Or.inr h1)), if_neg (fun h0 => h (Or.inl h0))]

/-- Witness for C9 (amended): a batch element with flag 2 makes
`multi_scalar_mul` fail with the malformed-flag message. -/
theorem flag_check_equivalence_witness :
    multi_scalar_mul wAdd wSmul sTrue (pointsOf [⟨1, 1, 2, 0, 0⟩])
      (losOf [⟨1, 1, 2, 0, 0⟩]) (hisOf [⟨1, 1, 2, 0, 0⟩])
      = .error (.Failed .MultiScalarMul malformedFlagMsg) :=
  (flag_check_equivalence sTrue wAdd wSmul 1 1 2 0 0 []).2.1 (by decide)

/-- C2: on every successful run, the returned triple is the canonical
encoding of the group-theoretic result: exactly `(0, 0, 1)` when the result
is the identity, and `(x, y, 0)` with the affine coordinates otherwise,
both for `multi_scalar_mul` (result of the batch sum) and for
`embedded_curve_add` (result of the group addition of the validated
operands). -/
theorem result_identity_canonical (ecAdd : GPoint → GPoint → GPoint)
    (ecSmul : ℕ → GPoint → GPoint) (subCheck : Fp → Fp → Bool)
    (points scalars_lo scalars_hi : List Fp) (batch : List (GPoint × ℕ))
    (hlen1 : points.length = 3 * scalars_lo.length)
    (hlen2 : scalars_lo.length = scalars_hi.length)
    (hv : msmValidate subCheck points scalars_lo scalars_hi = .ok batch)
    (input1 input2 : Fp × Fp × Fp) (q1 q2 : GPoint)
    (h1 : ¬ (1 : Fp).val < input1.2.2.val) (h2 : ¬ (1 : Fp).val < input2.2.2.val)
    (hc1 : create_point subCheck input1.1 input1.2.1 input1.2.2 = .ok q1)
    (hc2 : create_point subCheck input2.1 input2.2.1 input2.2.2 = .ok q2)
    (hq1 : q1 ≠ none) (hq2 : q2 ≠ none) :
    (msm_bigint ecAdd ecSmul batch = none →
      multi_scalar_mul ecAdd ecSmul subCheck points scalars_lo scalars_hi
        = .ok (0, 0, 1))
    ∧ (∀ xr yr, msm_bigint ecAdd ecSmul batch = some (xr, yr) →
      multi_scalar_mul ecAdd ecSmul subCheck points scalars_lo scalars_hi
        = .ok (xr, yr, 0))
    ∧ (ecAdd q1 q2 = none →
      embedded_curve_add ecAdd subCheck input1 input2 = .ok (0, 0, 1))
    ∧ (∀ xr yr, ecAdd q1 q2 = some (xr, yr) →
      embedded_curve_add ecAdd subCheck input1 input2 = .ok (xr, yr, 0)) := by
  have hmsm : multi_scalar_mul ecAdd ecSmul subCheck points scalars_lo scalars_hi
      = .ok (encodeResult (msm_bigint ecAdd ecSmul batch)) := by
    unfold multi_scalar_mul
    rw [if_neg (not_or.mpr ⟨fun hne => hne hlen1, fun hne => hne hlen2⟩), hv]
  have heca : embedded_curve_add ecAdd subCheck input1 input2
      = .ok (encodeResult (ecAdd q1 q2)) := by
    unfold embedded_curve_add
    rw [if_neg (not_or.mpr ⟨h1, h2⟩), hc1, hc2]
    show (if q1 = none ∨ q2 = none then _ else _) = _
    rw [if_neg (not_or.mpr ⟨hq1, hq2⟩)]
  refine ⟨?_, ?_, ?_, ?_⟩
  · intro h
    rw [hmsm, h]
    rfl
  · intro xr yr h
    rw [hmsm, h]
    rfl
  · intro h
    rw [heca, h]
    rfl
  · intro xr yr h
    rw [heca, h]
    rfl

set_option maxRecDepth 10000 in
/-- Witness for C2: the empty batch sums to the identity and is encoded as
(0, 0, 1); an engine addition returning the identity on two validated
generator operands is also encoded as (0, 0, 1). -/
theorem result_identity_canonical_witness :
    multi_scalar_mul (fun _ _ => none) wSmul sTrue [] [] [] = .ok (0, 0, 1)
    ∧ embedded_curve_add (fun _ _ => none) sTrue (genX, genY, 0) (genX, genY, 0)
      = .ok (0, 0, 1) := by
  have h := result_identity_canonical (fun _ _ => none) wSmul sTrue [] [] [] []
    rfl rfl rfl (genX, genY, 0) (genX, genY, 0) (some (genX, genY)) (some (genX, genY))
    (by decide) (by decide) rfl rfl (by simp) (by simp)
  exact ⟨h.1 rfl, h.2.2.1 rfl⟩

/-- C3: validation is fail-fast in a fixed order.  Elements are processed in
ascending index order, and two inputs agreeing on a prefix of valid
elements followed by the same failing element produce the same error, with
no partial results and without inspecting later elements; within an
element, the infinity flag is checked first, then the point, then the low
limb, then the high limb, then the reconstructed scalar's range. -/
theorem msm_validation_fail_fast (ecAdd : GPoint → GPoint → GPoint)
    (ecSmul : ℕ → GPoint → GPoint) (subCheck : Fp → Fp → Bool)
    (pre : List Elem) (e : Elem) (rest₁ rest₂ : List Elem)
    (er : BlackBoxResolutionError)
    (hpre : ∀ e' ∈ pre, ElemOk subCheck e')
    (he : elemValidate subCheck e = .error er) :
    multi_scalar_mul ecAdd ecSmul subCheck (pointsOf (pre ++ e :: rest₁))
        (losOf (pre ++ e :: rest₁)) (hisOf (pre ++ e :: rest₁)) = .error er
    ∧ multi_scalar_mul ecAdd ecSmul subCheck (pointsOf (pre ++ e :: rest₂))
        (losOf (pre ++ e :: rest₂)) (hisOf (pre ++ e :: rest₂)) = .error er
    ∧ (∀ x y inf lo hi, (1 : Fp).val < inf.val →
        elemValidate subCheck ⟨x, y, inf, lo, hi⟩
          = .error (.Failed .MultiScalarMul malformedFlagMsg))
    ∧ (∀ x y inf lo hi m, ¬ (1 : Fp).val < inf.val →
        create_point subCheck x y inf = .error m →
        elemValidate subCheck ⟨x, y, inf, lo, hi⟩
          = .error (.Failed .MultiScalarMul m))
    ∧ (∀ x y inf lo hi P, ¬ (1 : Fp).val < inf.val →
        create_point subCheck x y inf = .ok P → 2 ^ 128 ≤ lo.val →
        elemValidate subCheck ⟨x, y, inf, lo, hi⟩
          = .error (.Failed .MultiScalarMul
              ("Limb " ++ toHex lo ++ " is not less than 2^128")))
    ∧ (∀ x y inf lo hi P, ¬ (1 : Fp).val < inf.val →
        create_point subCheck x y inf = .ok P →
        lo.val < 2 ^ 128 → 2 ^ 128 ≤ hi.val →
        elemValidate subCheck ⟨x, y, inf, lo, hi⟩
          = .error (.Failed .MultiScalarMul
              ("Limb " ++ toHex hi ++ " is not less than 2^128")))
    ∧ (∀ x y inf lo hi P, ¬ (1 : Fp).val < inf.val →
        create_point subCheck x y inf = .ok P →
        lo.val < 2 ^ 128 → hi.val < 2 ^ 128 →
        grumpkinScalarModulus ≤ hi.val * 2 ^ 128 + lo.val →
        elemValidate subCheck ⟨x, y, inf, lo, hi⟩
          = .error (.Failed .MultiScalarMul
              (hexPad 16 (hi.val / 2 ^ 64) ++ hexPad 16 (hi.val % 2 ^ 64)
                ++ hexPad 16 (lo.val / 2 ^ 64) ++ hexPad 16 (lo.val % 2 ^ 64)
                ++ " is not a valid grumpkin scalar"))) := by
  refine ⟨?_, ?_, ?_, ?_, ?_, ?_, ?_⟩
  · exact multi_scalar_mul_of_validate_error ecAdd ecSmul subCheck _ _
      (msmValidate_append_error subCheck pre e rest₁ er hpre he)
  · exact multi_scalar_mul_of_validate_error ecAdd ecSmul subCheck _ _
      (msmValidate_append_error subCheck pre e rest₂ er hpre he)
  · intro x y inf lo hi hlt
    unfold elemValidate
    rw [if_pos hlt]
  · intro x y inf lo hi m hflag hcp
    exact elemValidate_cp_error subCheck x y inf lo hi m hflag hcp
  · intro x y inf lo hi P hflag hcp hlo
    unfold elemValidate
    rw [if_neg hflag, hcp]
    unfold field_to_u128_limb
    rw [if_neg (Nat.not_lt.mpr hlo)]
  · intro x y inf lo hi P hflag hcp hlo hhi
    unfold elemValidate
    rw [if_neg hflag, hcp]
    unfold field_to_u128_limb
    rw [if_pos hlo, if_neg (Nat.not_lt.mpr hhi)]
  · intro x y inf lo hi P hflag hcp hlo hhi hs
    unfold elemValidate
    rw [if_neg hflag, hcp]
    unfold field_to_u128_limb
    rw [if_pos hlo, if_pos hhi]
    simp only [checkGrumpkinScalar_error hlo hhi hs]

/-- Witness for C3: a batch whose first element has a non-boolean flag
fails with the malformed-flag error regardless of what follows it. -/
theorem msm_validation_fail_fast_witness :
    multi_scalar_mul wAdd wSmul sTrue (pointsOf [⟨1, 1, 2, 0, 0⟩])
        (losOf [⟨1, 1, 2, 0, 0⟩]) (hisOf [⟨1, 1, 2, 0, 0⟩])
      = .error (.Failed .MultiScalarMul malformedFlagMsg)
    ∧ multi_scalar_mul wAdd wSmul sTrue (pointsOf [⟨1, 1, 2, 0, 0⟩, ⟨0, 0, 1, 0, 0⟩])
        (losOf [⟨1, 1, 2, 0, 0⟩, ⟨0, 0, 1, 0, 0⟩])
        (hisOf [⟨1, 1, 2, 0, 0⟩, ⟨0, 0, 1, 0, 0⟩])
      = .error (.Failed .MultiScalarMul malformedFlagMsg) := by
  have h := msm_validation_fail_fast wAdd wSmul sTrue [] ⟨1, 1, 2, 0, 0⟩ []
    [⟨0, 0, 1, 0, 0⟩] (.Failed .MultiScalarMul malformedFlagMsg)
    (fun e' he' => absurd he' (List.not_mem_nil e')) rfl
  exact ⟨h.1, h.2.1⟩

/-- C1: for a batch of 1 to 5 valid elements (boolean flags with validated
points, limbs below `2^128`, reconstructed scalars below the grumpkin
order), `multi_scalar_mul` returns the canonical encoding of the reference
result — the sum, via per-pair single-scalar multiplication and repeated
point addition, of each validated point times its reconstructed scalar —
and the result is unchanged under any permutation of the batch, given that
the engine addition is commutative and associative. -/
theorem multi_scalar_mul_matches_reference (ecAdd : GPoint → GPoint → GPoint)
    (ecSmul : ℕ → GPoint → GPoint) (subCheck : Fp → Fp → Bool)
    (hcomm : ∀ a b, ecAdd a b = ecAdd b a)
    (hassoc : ∀ a b c, ecAdd (ecAdd a b) c = ecAdd a (ecAdd b c))
    (batch batch' : List Elem) (hperm : batch.Perm batch')
    (hlen : 1 ≤ batch.length ∧ batch.length ≤ 5)
    (hok : ∀ e ∈ batch, ElemOk subCheck e) :
    multi_scalar_mul ecAdd ecSmul subCheck (pointsOf batch) (losOf batch) (hisOf batch)
        = .ok (encodeResult (referenceMSM ecAdd ecSmul (batch.map validatedPair)))
    ∧ multi_scalar_mul ecAdd ecSmul subCheck (pointsOf batch') (losOf batch') (hisOf batch')
        = multi_scalar_mul ecAdd ecSmul subCheck (pointsOf batch) (losOf batch)
            (hisOf batch) := by
  have hok' : ∀ e ∈ batch', ElemOk subCheck e :=
    fun e he => hok e (hperm.mem_iff.mpr he)
  have h1 := multi_scalar_mul_of_validate ecAdd ecSmul subCheck batch _
    (msmValidate_ok subCheck batch hok)
  have h2 := multi_scalar_mul_of_validate ecAdd ecSmul subCheck batch' _
    (msmValidate_ok subCheck batch' hok')
  have hfoldmap : ∀ l : List (GPoint × ℕ),
      msm_bigint ecAdd ecSmul l
        = (l.map fun pr => ecSmul pr.2 pr.1).foldl ecAdd none := by
    intro l
    unfold msm_bigint
    rw [List.foldl_map]
  have hfold : msm_bigint ecAdd ecSmul (batch'.map validatedPair)
      = msm_bigint ecAdd ecSmul (batch.map validatedPair) := by
    rw [hfoldmap, hfoldmap]
    exact foldl_ecAdd_perm ecAdd hcomm hassoc
      (((hperm.map validatedPair).map fun pr => ecSmul pr.2 pr.1).symm) none
  constructor
  · rw [h1]
    unfold referenceMSM
    rw [hfoldmap]
  · rw [h1, h2, hfold]

set_option maxRecDepth 10000 in
/-- Witness for C1: a singleton valid batch (the identity point with scalar
3) under the concrete commutative engine matches the reference result. -/
theorem multi_scalar_mul_matches_reference_witness :
    multi_scalar_mul wAdd wSmul sTrue (pointsOf [⟨1, 1, 1, 3, 0⟩])
        (losOf [⟨1, 1, 1, 3, 0⟩]) (hisOf [⟨1, 1, 1, 3, 0⟩])
      = .ok (encodeResult (referenceMSM wAdd wSmul
          ([⟨1, 1, 1, 3, 0⟩].map validatedPair))) :=
  (multi_scalar_mul_matches_reference wAdd wSmul sTrue wAdd_comm wAdd_assoc
    [⟨1, 1, 1, 3, 0⟩] [⟨1, 1, 1, 3, 0⟩] (List.Perm.refl _) (by decide) (by decide)).1
